import Mathlib

/-!
Shallow embedding of the verifact_ai claim-verification pipeline
(`src/backend`), covering the fact-checker agent, the claim detector,
the evidence retriever's deduplication and ranking, the embedding /
similarity index, the clustering service and the verification router.

Conventions of the embedding:

* Python `float` values that the program produces and compares are
  modelled as `ℚ` (the program only ever builds them from decimal
  literals and arithmetic on those, so exact rationals are faithful).
* JSON objects returned by the generation provider are modelled as
  structures whose fields are `Option`-valued: `none` is an absent key,
  and `o.getD d` is Python's `dict.get(k, d)`.
* A `try`/`except` block around a fallible external call is modelled by
  an `Except String α` parameter: `.error e` is the branch where the
  call (or the parsing of its output) raised, `.ok v` the branch where
  a value was produced.  A non-numeric JSON value fed to `float()` or
  `int()` raises inside the same `try` block and is therefore part of
  the `.error` branch.
* Python string slicing `s[:n]` is `pyTake s n`: the first `n`
  characters of the string.
-/

/-- Python string slicing `s[:n]` (by characters, like Python's by
code points). -/
def pyTake (s : String) (n : ℕ) : String := ⟨s.data.take n⟩

/-- Python `int(q)` on a number: truncation toward zero (for a
rational `num/den` in lowest terms with positive denominator, the
toward-zero integer division of `num` by `den`). -/
def pyInt (q : ℚ) : ℤ := q.num.tdiv q.den

/-- Python `a or b` for an optional string `a` (falsy = missing or empty). -/
def pyOrStr (a : Option String) (b : String) : String :=
  match a with
  | some s => if s = "" then b else s
  | none => b

/-- One evidence-source record as built by the adapters in
`src/backend/agents/evidence_retriever.py` (all keys always present). -/
structure EvidenceSource where
  url : String
  title : String
  excerpt : String
  published_date : Option String
  domain : String
  reliability_score : ℚ
  source_type : String
deriving DecidableEq, Repr

/-- One source citation as found in the generation output's `sources`
list (`fact_checker.py`); keys may be absent. -/
structure CitedSource where
  link : Option String
  excerpt : Option String
  title : Option String
deriving DecidableEq, Repr

/-- One validated source reference as produced by `_validate_sources`. -/
structure SourceReference where
  link : String
  excerpt : String
  title : String
  reliability : ℚ
deriving DecidableEq, Repr

/-- Raw JSON verdict object parsed from the generation output
(`fact_checker.py`, `json.loads` result); every field may be absent. -/
structure RawVerdict where
  verdict : Option String
  confidence : Option ℚ
  harm_score : Option ℚ
  recommended_action : Option String
  sources : Option (List CitedSource)
  reasoning : Option String
  explain_like_12 : Option String
  tags : Option (List String)
deriving DecidableEq, Repr

/-- Validated verdict dictionary returned by `FactCheckerAgent`. -/
structure Verdict where
  verdict : String
  confidence : ℚ
  reasoning : String
  sources : List SourceReference
  explain_like_12 : String
  harm_score : ℤ
  recommended_action : String
  expert_explanation : String
  tags : List String
deriving DecidableEq, Repr

/-- The matching loop of `FactCheckerAgent._validate_sources`
(fact_checker.py lines 155-174): for each of the first 10 cited
sources, keep it only if its `link` equals the `url` of some evidence
source, copying title/reliability from the first matching evidence. -/
def matchedCitedSources (claimed_sources : List CitedSource)
    (evidence_sources : List EvidenceSource) : List SourceReference :=
  let evidence_urls := evidence_sources.map (·.url)
  (claimed_sources.take 10).filterMap (fun source =>
    let url := source.link.getD ""
    if url ∈ evidence_urls then
      let matching_evidence := evidence_sources.find? (fun e => e.url = url)
      some { link := url
             excerpt := pyTake (source.excerpt.getD "") 500
             title := pyOrStr source.title ((matching_evidence.map (·.title)).getD "")
             reliability := (matching_evidence.map (·.reliability_score)).getD (1/2) }
    else none)

/-- `FactCheckerAgent._validate_sources` (fact_checker.py lines
146-186): match citations against the evidence set; if none match and
evidence is non-empty, fall back to the first 3 evidence sources; cap
the result at 10 entries. -/
def validate_sources (claimed_sources : List CitedSource)
    (evidence_sources : List EvidenceSource) : List SourceReference :=
  let validated := matchedCitedSources claimed_sources evidence_sources
  let validated :=
    if validated = [] ∧ evidence_sources ≠ [] then
      (evidence_sources.take 3).map (fun source =>
        { link := source.url
          excerpt := pyTake source.excerpt 500
          title := source.title
          reliability := source.reliability_score })
    else validated
  validated.take 10

/-- Valid verdict labels (fact_checker.py line 113). -/
def valid_verdicts : List String :=
  ["True", "False", "Misleading", "Partially True", "Unverified"]

/-- Valid recommended actions (fact_checker.py line 125). -/
def valid_actions : List String :=
  ["label", "debunk", "escalate", "monitor", "approve"]

/-- `FactCheckerAgent._validate_verdict` (fact_checker.py lines
105-144): coerce the verdict label and action into their enums, clamp
confidence to [0,1] and harm_score to an integer in [0,100], validate
sources, and truncate the text fields. -/
def validate_verdict (result : RawVerdict)
    (evidence_sources : List EvidenceSource) : Verdict :=
  let verdict0 := result.verdict.getD "Unverified"
  let verdict := if verdict0 ∈ valid_verdicts then verdict0 else "Unverified"
  let confidence := max 0 (min 1 (result.confidence.getD 0))
  let harm_score := max 0 (min 100 (pyInt (result.harm_score.getD 0)))
  let action0 := result.recommended_action.getD "monitor"
  let action := if action0 ∈ valid_actions then action0 else "monitor"
  let validated_sources := validate_sources (result.sources.getD []) evidence_sources
  { verdict := verdict
    confidence := confidence
    reasoning := pyTake (result.reasoning.getD "") 3000
    sources := validated_sources
    explain_like_12 := pyTake (result.explain_like_12.getD "") 1000
    harm_score := harm_score
    recommended_action := action
    expert_explanation := pyTake (result.reasoning.getD "") 1500
    tags := (result.tags.getD []).take 10 }

/-- `FactCheckerAgent._create_error_verdict` (fact_checker.py lines
188-200). -/
def create_error_verdict (error : String) : Verdict :=
  { verdict := "Unverified"
    confidence := 0
    reasoning := "Unable to verify claim due to error: " ++ error
    sources := []
    explain_like_12 := "We couldn't check this claim because of a technical problem."
    harm_score := 0
    recommended_action := "monitor"
    expert_explanation := "Error during verification: " ++ error
    tags := ["error", "unverified"] }

/-- `FactCheckerAgent.fact_check` (fact_checker.py lines 24-83): the
generation call plus JSON parsing is the fallible step `gen`; on
success its output is validated against the evidence, on any exception
the error verdict is returned. -/
def fact_check (gen : Except String RawVerdict)
    (evidence_sources : List EvidenceSource) : Verdict :=
  match gen with
  | .ok result => validate_verdict result evidence_sources
  | .error e => create_error_verdict e

/-- Entity record attached to a claim (schemas.py `ClaimEntity`). -/
structure ClaimEntity where
  text : String
  type : String
  confidence : ℚ
deriving DecidableEq, Repr

/-- Raw JSON object parsed from the claim-detection generation output
(claim_detector.py); every field may be absent. -/
structure RawDetection where
  is_claim : Option Bool
  claim_text : Option String
  entities : Option (List ClaimEntity)
  claim_type : Option String
  confidence : Option ℚ
  reasoning : Option String
deriving DecidableEq, Repr

/-- Result dictionary returned by `ClaimDetectionAgent.detect_claim`:
the success path carries a `reasoning` key, the failure path an
`error` key instead. -/
structure Detection where
  is_claim : Bool
  claim_text : String
  entities : List ClaimEntity
  claim_type : String
  confidence : ℚ
  reasoning : Option String
  error : Option String
deriving DecidableEq, Repr

/-- `ClaimDetectionAgent._validate_response` (claim_detector.py lines
74-83): default every missing field and clamp confidence to [0,1]. -/
def validate_response (result : RawDetection) : Detection :=
  { is_claim := result.is_claim.getD false
    claim_text := result.claim_text.getD ""
    entities := result.entities.getD []
    claim_type := result.claim_type.getD "general"
    confidence := max 0 (min 1 (result.confidence.getD 0))
    reasoning := some (result.reasoning.getD "")
    error := none }

/-- `ClaimDetectionAgent.detect_claim` (claim_detector.py lines 23-72):
the generation call plus JSON parsing is the fallible step `gen`; any
exception is converted into the deterministic negative result. -/
def detect_claim (gen : Except String RawDetection) : Detection :=
  match gen with
  | .ok result => validate_response result
  | .error e =>
    { is_claim := false
      claim_text := ""
      entities := []
      claim_type := "general"
      confidence := 0
      reasoning := none
      error := some e }

/-- Loop of `EvidenceRetrieverAgent._deduplicate_sources`
(evidence_retriever.py lines 192-203) with the `seen_urls` set made
explicit: a source is kept iff its url is truthy (non-empty) and not
seen before. -/
def deduplicate_sources_go : List EvidenceSource → List String → List EvidenceSource
  | [], _ => []
  | source :: rest, seen_urls =>
    let url := source.url
    if url ≠ "" ∧ url ∉ seen_urls then
      source :: deduplicate_sources_go rest (url :: seen_urls)
    else
      deduplicate_sources_go rest seen_urls

/-- `EvidenceRetrieverAgent._deduplicate_sources` (evidence_retriever.py
lines 192-203). -/
def deduplicate_sources (sources : List EvidenceSource) : List EvidenceSource :=
  deduplicate_sources_go sources []

/-- Descending-reliability order used by `_rank_sources`. -/
def relRank (a b : EvidenceSource) : Prop := b.reliability_score ≤ a.reliability_score

instance : DecidableRel relRank := fun a b =>
  inferInstanceAs (Decidable (b.reliability_score ≤ a.reliability_score))

/-- `EvidenceRetrieverAgent._rank_sources` (evidence_retriever.py lines
205-208): Python's stable `sorted` by reliability score, descending,
modelled by a stable insertion sort. -/
def rank_sources (sources : List EvidenceSource) : List EvidenceSource :=
  List.insertionSort relRank sources

/-- Metadata entry stored alongside each vector in the similarity
index (embedding_service.py lines 98-102). -/
structure IndexMeta where
  claim_id : String
  claim_text : String
  index_position : ℕ
deriving DecidableEq, Repr

/-- State of the FAISS `IndexFlatL2` plus its parallel metadata list
(`EmbeddingService`): the flat index is just the list of stored
vectors. -/
structure EmbIndex where
  vectors : List (List ℚ)
  metadata : List IndexMeta
deriving DecidableEq, Repr

/-- Squared Euclidean distance between two vectors.  FAISS
`IndexFlatL2.search` returns squared L2 distances (it never takes the
square root), so this is the `distances` array the service receives. -/
def sqdist (u v : List ℚ) : ℚ :=
  ((u.zip v).map (fun p => (p.1 - p.2) ^ 2)).sum

/-- One search hit returned by `find_similar_claims`. -/
structure SimResult where
  claim_id : String
  claim_text : String
  similarity_score : ℚ
deriving DecidableEq, Repr

/-- Ascending-distance order on (index, distance) pairs. -/
def distLE (a b : ℕ × ℚ) : Prop := a.2 ≤ b.2

instance : DecidableRel distLE := fun a b =>
  inferInstanceAs (Decidable (a.2 ≤ b.2))

/-- Distance of every stored vector to the query, tagged with its
index position (the exact scan done by the flat FAISS index). -/
def searchPairs (vectors : List (List ℚ)) (q : List ℚ) : List (ℕ × ℚ) :=
  (List.range vectors.length).map (fun i => (i, sqdist (vectors.getD i []) q))

/-- `EmbeddingService.add_claim_to_index` (embedding_service.py lines
72-107): append the vector and its metadata entry. -/
def add_claim_to_index (idx : EmbIndex) (claim_id claim_text : String)
    (embedding : List ℚ) : EmbIndex :=
  { vectors := idx.vectors ++ [embedding]
    metadata := idx.metadata ++ [⟨claim_id, claim_text, idx.vectors.length⟩] }

/-- `EmbeddingService.find_similar_claims` (embedding_service.py lines
112-160): exact nearest-neighbor search over the stored vectors with
`k` capped at the index size, similarity computed by the service as
`1 / (1 + distance)` from the (squared) distances FAISS returns,
results filtered by `idx < len(metadata)` and `similarity >=
threshold` (this per-hit step is `simFilter`).  The query embedding is
the value returned by the embedding provider for the query text. -/
def simFilter (metadata : List IndexMeta) (threshold : ℚ) (p : ℕ × ℚ) : Option SimResult :=
  let similarity := 1 / (1 + p.2)
  match metadata.get? p.1 with
  | some m =>
    if threshold ≤ similarity then
      some ⟨m.claim_id, m.claim_text, similarity⟩
    else none
  | none => none

def find_similar_claims (idx : EmbIndex) (query_embedding : List ℚ)
    (k : ℕ) (threshold : ℚ) : List SimResult :=
  if idx.vectors.length = 0 then []
  else
    let kk := min k idx.vectors.length
    let sorted := List.insertionSort distLE (searchPairs idx.vectors query_embedding)
    (sorted.take kk).filterMap (simFilter idx.metadata threshold)

/-- Claim document as read by the clustering service (fields used in
clustering_service.py lines 41-61). -/
structure ClaimRec where
  id : String
  claim_text : String
  created_at : ℤ
  embedding : Option (List ℚ)
deriving DecidableEq, Repr

/-- Cluster record built by `_format_cluster` (clustering_service.py
lines 123-146). -/
structure Cluster where
  cluster_id : String
  label : String
  claim_ids : List String
  representative_claim : String
  claim_count : ℕ
  is_trending : Bool
  trend_score : ℚ
  category : String
deriving DecidableEq, Repr

/-- Stopword list of `_generate_cluster_label` (clustering_service.py
lines 157-158). -/
def stop_words : List String :=
  ["about", "there", "their", "would", "could", "should"]

/-- Python `str.split()` with no argument: split on whitespace runs,
dropping empty pieces. -/
def pySplit (s : String) : List String :=
  (s.split Char.isWhitespace).filter (· ≠ "")

/-- Character loop of Python `str.title()`: a letter is uppercased when
the previous character is not a letter, lowercased otherwise. -/
def pyTitleGo : Bool → List Char → List Char
  | _, [] => []
  | prevAlpha, c :: cs =>
    (if c.isAlpha then (if prevAlpha then c.toLower else c.toUpper) else c)
      :: pyTitleGo c.isAlpha cs

/-- Python `str.title()`. -/
def pyTitle (s : String) : String := ⟨pyTitleGo false s.data⟩

/-- First occurrences of a list's elements in order, with an explicit
seen accumulator (the key order of a Python dict / Counter built by
repeated insertion). -/
def distinctAux [DecidableEq α] : List α → List α → List α
  | [], _ => []
  | a :: l, seen =>
    if a ∈ seen then distinctAux l seen else a :: distinctAux l (a :: seen)

/-- First occurrences of a list's elements in order. -/
def distinct [DecidableEq α] (l : List α) : List α := distinctAux l []

/-- Order by descending multiplicity in `l`; ties keep the given
order, matching `Counter.most_common`. -/
def countDesc (l : List String) (a b : String) : Prop := l.count b ≤ l.count a

instance (l : List String) : DecidableRel (countDesc l) := fun a b =>
  inferInstanceAs (Decidable (l.count b ≤ l.count a))

/-- `Counter(all_words).most_common(n)` restricted to the words
themselves: distinct words in first-occurrence order, stably sorted by
descending count, first `n` taken. -/
def most_common (l : List String) (n : ℕ) : List String :=
  (List.insertionSort (countDesc l) (distinct l)).take n

/-- `ClusteringService._generate_cluster_label` (clustering_service.py
lines 148-168). -/
def generate_cluster_label (claim_texts : List String) : String :=
  let all_words :=
    (claim_texts.map (fun text =>
      (((pySplit text.toLower).filter
        (fun w => decide (4 < w.length) && decide (w ∉ stop_words))).take 5))).flatten
  if all_words = [] then "Unnamed Cluster"
  else pyTitle (String.intercalate " " (most_common all_words 3))

/-- Python `max(claim_texts, key=len)`: the first longest element. -/
def pyMaxByLen : List String → String
  | [] => ""
  | a :: l => l.foldl (fun best x => if best.length < x.length then x else best) a

/-- `ClusteringService._format_cluster` (clustering_service.py lines
123-146); `ts` is the `int(datetime.utcnow().timestamp())` suffix of
the generated cluster id, `members` the (claim_id, claim_text) pairs
grouped under this label. -/
def format_cluster (lab : ℤ) (ts : ℕ) (members : List (String × String)) : Cluster :=
  let claim_ids := members.map (·.1)
  let claim_texts := members.map (·.2)
  { cluster_id := "cluster_" ++ toString lab ++ "_" ++ toString ts
    label := generate_cluster_label claim_texts
    claim_ids := claim_ids
    representative_claim := pyMaxByLen claim_texts
    claim_count := claim_ids.length
    is_trending := decide (5 ≤ claim_ids.length)
    trend_score := min 100 ((claim_ids.length : ℚ) * 10)
    category := "general" }

/-- Zip of three lists, truncating at the shortest (Python `zip`). -/
def zip3 : List α → List β → List γ → List (α × β × γ)
  | a :: as, b :: bs, c :: cs => (a, b, c) :: zip3 as bs cs
  | _, _, _ => []

/-- `ClusteringService._run_hdbscan_clustering` (clustering_service.py
lines 76-121) with the HDBSCAN call abstracted as `fit`: group the
claims by their predicted label, skipping noise points (label -1), in
first-appearance order (Python dict insertion order). -/
def run_hdbscan_clustering (fit : List (List ℚ) → List ℤ) (ts : ℕ)
    (embeddings : List (List ℚ)) (claim_ids claim_texts : List String) : List Cluster :=
  let cluster_labels := fit embeddings
  let zipped := zip3 claim_ids claim_texts cluster_labels
  let labs := distinct ((zipped.map (fun t => t.2.2)).filter (· ≠ -1))
  labs.map (fun lab =>
    format_cluster lab ts
      ((zipped.filter (fun t => t.2.2 = lab)).map (fun t => (t.1, t.2.1))))

/-- Python truthiness of the `embedding` value in the extraction loop
(clustering_service.py line 58): present and a non-empty list. -/
def embTruthy : Option (List ℚ) → Bool
  | some e => !e.isEmpty
  | none => false

/-- Selection step of `ClusteringService.cluster_recent_claims`
(clustering_service.py lines 39-46): claims created at or after
`cutoff_time` whose `embedding` field exists and is non-null (the
Mongo query). -/
def eligibleClaims (db : List ClaimRec) (cutoff_time : ℤ) : List ClaimRec :=
  db.filter (fun c => decide (cutoff_time ≤ c.created_at) && c.embedding.isSome)

/-- Extraction loop of `cluster_recent_claims` (clustering_service.py
lines 52-61): of the up-to-1000 selected claims, those whose
`embedding` value is truthy, in order. -/
def clusterInput (db : List ClaimRec) (cutoff_time : ℤ) : List ClaimRec :=
  ((eligibleClaims db cutoff_time).take 1000).filter (fun c => embTruthy c.embedding)

/-- The embedding rows handed to HDBSCAN for one clustering call. -/
def clusterEmbeddings (db : List ClaimRec) (cutoff_time : ℤ) : List (List ℚ) :=
  (clusterInput db cutoff_time).map (fun c => c.embedding.getD [])

/-- `ClusteringService.cluster_recent_claims` (clustering_service.py
lines 27-74), on an abstract claim store: select the eligible claims,
capped at 1000 documents (`to_list(length=1000)`); return no clusters
when fewer than `min_cluster_size` remain; otherwise extract the
truthy embeddings with their ids and texts in lockstep and run
HDBSCAN.  The `_save_clusters` side effect does not change the
returned value and is not modelled here. -/
def cluster_recent_claims (db : List ClaimRec) (cutoff_time : ℤ)
    (min_cluster_size : ℕ) (fit : List (List ℚ) → List ℤ) (ts : ℕ) : List Cluster :=
  if ((eligibleClaims db cutoff_time).take 1000).length < min_cluster_size then []
  else
    run_hdbscan_clustering fit ts (clusterEmbeddings db cutoff_time)
      ((clusterInput db cutoff_time).map (·.id))
      ((clusterInput db cutoff_time).map (·.claim_text))

/-- Claim document as stored in the claim store (fields of
schemas.py `ClaimInDB` used by the verification router). -/
structure ClaimDoc where
  claim_text : String
  entities : List ClaimEntity
  verdict_id : Option String
  cluster_id : Option String
  status : String
  created_at : ℤ
  updated_at : ℤ
deriving DecidableEq, Repr

/-- Verdict document as stored in the verdict store (fields of
schemas.py `VerdictInDB` that the router reads back). -/
structure VerdictDoc where
  claim_id : String
  verdict : String
  confidence : ℚ
  reasoning : String
  sources : List SourceReference
  explain_like_12 : String
  harm_score : ℤ
  recommended_action : String
  expert_explanation : Option String
  tags : List String
  human_reviewed : Bool
  created_at : ℤ
deriving DecidableEq, Repr

/-- Evidence snapshot document (verification.py lines 76-85). -/
structure EvidenceDoc where
  claim_id : String
  sources : List EvidenceSource
  total_sources_found : ℕ
  search_queries : List String
  retrieval_method : String
  created_at : ℤ
deriving DecidableEq, Repr

/-- Alert document (verification.py lines 227-235). -/
structure AlertDoc where
  alert_type : String
  title : String
  description : String
  severity : String
  related_claim_ids : List String
  is_active : Bool
  created_at : ℤ
deriving DecidableEq, Repr

/-- Database state seen by the verification router: the claim and
verdict stores are association lists keyed by document id, the
evidence and alert stores are append-only collections. -/
structure VState where
  claims : List (String × ClaimDoc)
  verdicts : List (String × VerdictDoc)
  evidence : List EvidenceDoc
  alerts : List AlertDoc
deriving DecidableEq, Repr

/-- Mongo `find_one({"_id": k})` on an association-list store. -/
def findDoc (k : String) (l : List (String × α)) : Option α :=
  (l.find? (fun p => p.1 = k)).map (·.2)

/-- Mongo `update_one({"_id": cid}, {"$set": ...})` on the claim store. -/
def updateClaim (s : VState) (cid : String) (f : ClaimDoc → ClaimDoc) : VState :=
  { s with claims := s.claims.map (fun p => if p.1 = cid then (p.1, f p.2) else p) }

/-- The API response model `VerdictResponse` (schemas.py). -/
structure VerdictResponse where
  id : String
  claim_id : String
  verdict : String
  confidence : ℚ
  reasoning : String
  sources : List SourceReference
  explain_like_12 : String
  harm_score : ℤ
  recommended_action : String
  human_reviewed : Bool
  created_at : ℤ
deriving DecidableEq, Repr

/-- Response built from an already-stored verdict (verification.py
lines 44-56). -/
def storedResponse (vid cid : String) (vd : VerdictDoc) : VerdictResponse :=
  { id := vid
    claim_id := cid
    verdict := vd.verdict
    confidence := vd.confidence
    reasoning := vd.reasoning
    sources := vd.sources
    explain_like_12 := vd.explain_like_12
    harm_score := vd.harm_score
    recommended_action := vd.recommended_action
    human_reviewed := vd.human_reviewed
    created_at := vd.created_at }

/-- Response built from a freshly generated verdict (verification.py
lines 138-150). -/
def newResponse (vid cid : String) (vr : Verdict) (created : ℤ) : VerdictResponse :=
  { id := vid
    claim_id := cid
    verdict := vr.verdict
    confidence := vr.confidence
    reasoning := vr.reasoning
    sources := vr.sources
    explain_like_12 := vr.explain_like_12
    harm_score := vr.harm_score
    recommended_action := vr.recommended_action
    human_reviewed := false
    created_at := created }

/-- Pydantic validation performed when `VerdictInDB` is constructed
(schemas.py `VerdictBase`/`SourceReference` field constraints):
verdict and action must match their regexes, confidence in [0,1],
reasoning 50-3000 chars, 1-10 sources each with excerpt at most 500
chars and reliability in [0,1], explainer 30-1000 chars, harm score an
integer in [0,100]. -/
def pydanticVerdictOk (v : Verdict) : Bool :=
  decide (v.verdict ∈ valid_verdicts) &&
  decide (0 ≤ v.confidence ∧ v.confidence ≤ 1) &&
  decide (50 ≤ v.reasoning.length ∧ v.reasoning.length ≤ 3000) &&
  decide (1 ≤ v.sources.length ∧ v.sources.length ≤ 10) &&
  v.sources.all (fun s =>
    decide (s.excerpt.length ≤ 500 ∧ 0 ≤ s.reliability ∧ s.reliability ≤ 1)) &&
  decide (30 ≤ v.explain_like_12.length ∧ v.explain_like_12.length ≤ 1000) &&
  decide (0 ≤ v.harm_score ∧ v.harm_score ≤ 100) &&
  decide (v.recommended_action ∈ valid_actions)

/-- Construction of `VerdictInDB` (verification.py lines 100-113):
returns `none` when pydantic validation raises. -/
def mkVerdictInDB (cid : String) (v : Verdict) (now : ℤ) : Option VerdictDoc :=
  if pydanticVerdictOk v then
    some { claim_id := cid
           verdict := v.verdict
           confidence := v.confidence
           reasoning := v.reasoning
           sources := v.sources
           explain_like_12 := v.explain_like_12
           harm_score := v.harm_score
           recommended_action := v.recommended_action
           expert_explanation := some v.expert_explanation
           tags := v.tags
           human_reviewed := false
           created_at := now }
  else none

/-- Result of `EvidenceRetrieverAgent.retrieve_evidence`: on success a
full result dictionary (retrieval_method "multi-source"); on an
internal exception the degraded dictionary, which carries an `error`
key but no `retrieval_method` key. -/
inductive EvidenceResult where
  | ok (sources : List EvidenceSource) (total_sources_found : ℕ) (search_queries : List String)
  | failed (error : String)
deriving DecidableEq, Repr

/-- `_create_alert`'s alert document (verification.py lines 224-241). -/
def mk_alert (cid claim_text : String) (vr : Verdict) (now : ℤ) : AlertDoc :=
  { alert_type := "high_impact"
    title := "High Harm Score Detected: " ++ vr.verdict
    description := "Claim: " ++ pyTake claim_text 200
    severity := if vr.harm_score < 90 then "high" else "critical"
    related_claim_ids := [cid]
    is_active := true
    created_at := now }

/-- How one call to the `verify_claim` endpoint ends. -/
inductive Outcome where
  | notFound
  | cached (resp : VerdictResponse)
  | verified (resp : VerdictResponse)
  | errored
deriving DecidableEq, Repr

/-- Agent calls performed during a run. -/
inductive AgentAction where
  | retrieveEvidence
  | factCheckCall
deriving DecidableEq, Repr

/-- Trace of one call to the endpoint: its outcome, the database state
after each write (in program order, each one a state an observer could
read), and the agent calls that were made. -/
structure RunResult where
  outcome : Outcome
  states : List VState
  actions : List AgentAction
deriving DecidableEq, Repr

/-- Last state of a run (the initial state when nothing was written). -/
def lastState (s0 : VState) (r : RunResult) : VState := r.states.getLastD s0

/-- The already-verified short-circuit check (verification.py lines
40-56): a truthy (non-null, non-empty) `verdict_id` with
`force_reverify` unset returns the stored verdict's response when that
verdict record exists; otherwise the full pipeline runs. -/
def cachedResponse (s0 : VState) (claim_id : String) (claim : ClaimDoc)
    (force_reverify : Bool) : Option VerdictResponse :=
  match claim.verdict_id, force_reverify with
  | some vid, false =>
    if vid ≠ "" then (findDoc vid s0.verdicts).map (storedResponse vid claim_id)
    else none
  | _, _ => none

/-- Claim-store write setting the claim to status "processing"
(verification.py lines 59-62). -/
def processingState (s : VState) (claim_id : String) (now : ℤ) : VState :=
  updateClaim s claim_id (fun c => { c with status := "processing", updated_at := now })

/-- Claim-store write of the outer exception handler, setting the
claim to status "error" (verification.py lines 158-161). -/
def errorState (s : VState) (claim_id : String) (now : ℤ) : VState :=
  updateClaim s claim_id (fun c => { c with status := "error", updated_at := now })

/-- Evidence snapshot insert (verification.py lines 76-85). -/
def evidenceState (s : VState) (claim_id : String) (sources : List EvidenceSource)
    (total : ℕ) (queries : List String) (now : ℤ) : VState :=
  { s with evidence := s.evidence ++ [⟨claim_id, sources, total, queries, "multi-source", now⟩] }

/-- Verdict insert (verification.py lines 115-118). -/
def verdictState (s : VState) (new_vid : String) (vd : VerdictDoc) : VState :=
  { s with verdicts := s.verdicts ++ [(new_vid, vd)] }

/-- Claim-store write stamping the claim with its verdict reference
and terminal status "verified" (verification.py lines 121-130). -/
def verifiedState (s : VState) (claim_id new_vid : String) (now : ℤ) : VState :=
  updateClaim s claim_id
    (fun c => { c with verdict_id := some new_vid, status := "verified", updated_at := now })

/-- Conditional alert insert (verification.py lines 132-134 and
224-241): only when the harm score is at least 70. -/
def alertState (s : VState) (claim_id claim_text : String) (vr : Verdict) (now : ℤ) : VState :=
  if 70 ≤ vr.harm_score then
    { s with alerts := s.alerts ++ [mk_alert claim_id claim_text vr now] }
  else s

/-- `verify_claim` (verification.py lines 22-163).  `ev` is the result
of the evidence-retrieval call, `gen` the generation call made inside
`fact_check`, `new_vid` the id Mongo assigns to the inserted verdict,
`now` the wall-clock time.  When retrieval failed, reading
`evidence_result["retrieval_method"]` raises `KeyError`; when the
`VerdictInDB` construction fails pydantic validation it raises too;
both are caught by the outer handler which stamps the claim with
status "error" and re-raises as HTTP 500. -/
def verify_claim (s0 : VState) (claim_id : String) (force_reverify : Bool)
    (ev : EvidenceResult) (gen : Except String RawVerdict)
    (new_vid : String) (now : ℤ) : RunResult :=
  match findDoc claim_id s0.claims with
  | none => ⟨.notFound, [], []⟩
  | some claim =>
    match cachedResponse s0 claim_id claim force_reverify with
    | some resp => ⟨.cached resp, [], []⟩
    | none =>
      let s1 := processingState s0 claim_id now
      match ev with
      | .failed _ => ⟨.errored, [s1, errorState s1 claim_id now], [.retrieveEvidence]⟩
      | .ok sources total queries =>
        let s2 := evidenceState s1 claim_id sources total queries now
        let verdict_result := fact_check gen sources
        match mkVerdictInDB claim_id verdict_result now with
        | none =>
          ⟨.errored, [s1, s2, errorState s2 claim_id now],
            [.retrieveEvidence, .factCheckCall]⟩
        | some vd =>
          let s3 := verdictState s2 new_vid vd
          let s4 := verifiedState s3 claim_id new_vid now
          let s5 := alertState s4 claim_id claim.claim_text verdict_result now
          ⟨.verified (newResponse new_vid claim_id verdict_result now),
            [s1, s2, s3, s4, s5], [.retrieveEvidence, .factCheckCall]⟩

/-- Evidence list whose first entry has the lowest reliability,
exercising the fallback branch of `_validate_sources`. -/
def evidenceUnsorted : List EvidenceSource :=
  [⟨"u1", "t1", "x1", none, "d1", 1/10, "article"⟩,
   ⟨"u2", "t2", "x2", none, "d2", 9/10, "article"⟩,
   ⟨"u3", "t3", "x3", none, "d3", 8/10, "article"⟩,
   ⟨"u4", "t4", "x4", none, "d4", 7/10, "article"⟩]

/-- An evidence source whose `url` is the empty string (for example an
adapter record built from a provider item with no `url` field, where
`get("url", "")` yields `""`). -/
def sourceEmptyUrl : EvidenceSource := ⟨"", "t", "x", none, "d", 1/2, "article"⟩

instance : IsTotal (ℕ × ℚ) distLE := ⟨fun a b => le_total a.2 b.2⟩

instance : IsTrans (ℕ × ℚ) distLE := ⟨fun _ _ _ h1 h2 => le_trans h1 h2⟩

/-- A small concrete index: two identical vectors at the origin and
one vector at distance 2 from them. -/
def ctrIndex : EmbIndex :=
  { vectors := [[0, 0], [0, 0], [2, 0]]
    metadata := [⟨"c0", "t0", 0⟩, ⟨"c1", "t1", 1⟩, ⟨"c2", "t2", 2⟩] }

/-- A two-vector index used as concrete input for the C7 witness. -/
def wIdx : EmbIndex :=
  { vectors := [[0, 0], [1, 0]]
    metadata := [⟨"a", "ta", 0⟩, ⟨"b", "tb", 1⟩] }

/-- The observer-facing invariant of C9: any claim in status
"verified" carries a `verdict_id` referring to a verdict record that
is present in the verdict store. -/
def WFState (s : VState) : Prop :=
  ∀ cid c, findDoc cid s.claims = some c → c.status = "verified" →
    ∃ v, c.verdict_id = some v ∧ (findDoc v s.verdicts).isSome

/-- Concrete claim document used by the verification witnesses. -/
def wClaim : ClaimDoc :=
  { claim_text := "The moon landing was faked in 1969"
    entities := []
    verdict_id := none
    cluster_id := none
    status := "pending"
    created_at := 0
    updated_at := 0 }

/-- Concrete stored verdict used by the C10 witness. -/
def wVerdictDoc : VerdictDoc :=
  { claim_id := "c1"
    verdict := "False"
    confidence := mkRat 9 10
    reasoning := "r"
    sources := []
    explain_like_12 := "e"
    harm_score := 80
    recommended_action := "debunk"
    expert_explanation := none
    tags := []
    human_reviewed := true
    created_at := 3 }

/-- Concrete database state with an already-verified claim. -/
def wStateCached : VState :=
  { claims := [("c1",
      { wClaim with verdict_id := some "v0", status := "verified" })]
    verdicts := [("v0", wVerdictDoc)]
    evidence := []
    alerts := [] }

/-- Concrete database state with one pending claim, for the C4 and C9
witnesses. -/
def wState : VState :=
  { claims := [("c1", wClaim)], verdicts := [], evidence := [], alerts := [] }

/-- Concrete evidence source for the verification witnesses. -/
def wEvidenceSrc : EvidenceSource :=
  { url := "https://ex.org/a"
    title := "T"
    excerpt := "E"
    published_date := none
    domain := "ex.org"
    reliability_score := mkRat 9 10
    source_type := "fact-check" }

/-- Concrete raw generation output for the verification witnesses. -/
def wRaw : RawVerdict :=
  { verdict := some "False"
    confidence := some (mkRat 9 10)
    harm_score := some (mkRat 95 1)
    recommended_action := some "debunk"
    sources := some []
    reasoning := some "This claim is contradicted by multiple reliable fact checking sources."
    explain_like_12 := some "We checked this claim carefully and found it is not true."
    tags := some ["hoax"] }

attribute [local semireducible] Rat.add Rat.mul Rat.inv Rat.sub Rat.ofScientific

lemma mem_matchedCitedSources {r : SourceReference} {claimed : List CitedSource}
    {evidence : List EvidenceSource} (h : r ∈ matchedCitedSources claimed evidence) :
    ∃ e ∈ evidence, r.link = e.url := by
  unfold matchedCitedSources at h
  rw [List.mem_filterMap] at h
  obtain ⟨s, _, hf⟩ := h
  by_cases hc : (s.link.getD "") ∈ evidence.map (·.url)
  · simp only [if_pos hc, Option.some.injEq] at hf
    obtain ⟨e, he, hu⟩ := List.mem_map.mp hc
    exact ⟨e, he, by rw [← hf]; exact hu.symm⟩
  · simp only [if_neg hc] at hf
    exact absurd hf (by simp)

lemma matchedCitedSources_nil (claimed : List CitedSource) :
    matchedCitedSources claimed [] = [] := by
  unfold matchedCitedSources
  simp

lemma mem_validate_sources {r : SourceReference} {claimed : List CitedSource}
    {evidence : List EvidenceSource} (h : r ∈ validate_sources claimed evidence) :
    ∃ e ∈ evidence, r.link = e.url := by
  unfold validate_sources at h
  have h' := List.mem_of_mem_take h
  split at h'
  · obtain ⟨e, he, hr⟩ := List.mem_map.mp h'
    exact ⟨e, List.mem_of_mem_take he, by rw [← hr]⟩
  · exact mem_matchedCitedSources h'

/-- C1: for every call to `fact_check(claim_text, evidence_sources)`,
every entry of the returned verdict's `sources` has a `link` equal to
the `url` of some element of `evidence_sources`, and when
`evidence_sources` is empty the returned `sources` list is empty. -/
theorem fact_check_sources_from_evidence (gen : Except String RawVerdict)
    (evidence_sources : List EvidenceSource) :
    (∀ r ∈ (fact_check gen evidence_sources).sources,
        ∃ e ∈ evidence_sources, r.link = e.url)
    ∧ (evidence_sources = [] → (fact_check gen evidence_sources).sources = []) := by
  constructor
  · intro r hr
    cases gen with
    | error e => simp [fact_check, create_error_verdict] at hr
    | ok raw =>
      simp only [fact_check, validate_verdict] at hr
      exact mem_validate_sources hr
  · rintro rfl
    cases gen with
    | error e => rfl
    | ok raw =>
      simp only [fact_check, validate_verdict, validate_sources,
        matchedCitedSources_nil]
      simp

/-- Witness for C1 at a concrete input: with no evidence the verdict
carries no sources. -/
theorem fact_check_sources_from_evidence_witness :
    (fact_check (.ok ⟨some "False", some (9/10), some 80, some "debunk",
        some [⟨some "https://a.example", some "x", some "t"⟩],
        some "r", some "e", some ["t1"]⟩) []).sources = [] :=
  (fact_check_sources_from_evidence _ []).2 rfl

/-- C3: every verdict produced by `fact_check` has `confidence` in
[0,1] and `harm_score` an integer in [0,100], and every detection
record produced by `detect_claim` has `confidence` in [0,1], whatever
the raw generation output (missing, out-of-range or malformed fields
land in the clamped or in the error branch). -/
theorem verdict_and_detection_bounds (gen : Except String RawVerdict)
    (evidence_sources : List EvidenceSource) (gend : Except String RawDetection) :
    (0 ≤ (fact_check gen evidence_sources).confidence
      ∧ (fact_check gen evidence_sources).confidence ≤ 1)
    ∧ (0 ≤ (fact_check gen evidence_sources).harm_score
      ∧ (fact_check gen evidence_sources).harm_score ≤ 100)
    ∧ (0 ≤ (detect_claim gend).confidence ∧ (detect_claim gend).confidence ≤ 1) := by
  refine ⟨?_, ?_, ?_⟩
  · cases gen with
    | error e => exact ⟨le_refl 0, by norm_num [fact_check, create_error_verdict]⟩
    | ok raw =>
      refine ⟨le_max_left 0 _, max_le (by norm_num) (min_le_left 1 _)⟩
  · cases gen with
    | error e => exact ⟨le_refl 0, by norm_num [fact_check, create_error_verdict]⟩
    | ok raw =>
      exact ⟨le_max_left 0 _, max_le (by norm_num) (min_le_left 100 _)⟩
  · cases gend with
    | error e => exact ⟨le_refl 0, by norm_num [detect_claim]⟩
    | ok raw =>
      exact ⟨le_max_left 0 _, max_le (by norm_num) (min_le_left 1 _)⟩

/-- C6: whenever the generation call underlying `detect_claim` fails
(timeout, malformed output, provider error — the `.error` branch),
the returned record is the deterministic negative result with the
error message attached; no exception reaches the caller (the function
is total on the `.error` branch). -/
theorem detect_claim_fail_soft (e : String) :
    detect_claim (.error e) =
      { is_claim := false
        claim_text := ""
        entities := []
        claim_type := "general"
        confidence := 0
        reasoning := none
        error := some e } := rfl

/-- Counterexample for C2: with non-empty evidence and zero matching
citations, the fallback returns the first 3 evidence sources in input
order (`u1,u2,u3`), not the top 3 by reliability score (`u2,u3,u4`). -/
theorem validate_sources_fallback_not_top3 :
    evidenceUnsorted ≠ []
    ∧ matchedCitedSources [] evidenceUnsorted = []
    ∧ (validate_sources [] evidenceUnsorted).map (·.link) = ["u1", "u2", "u3"]
    ∧ ((rank_sources evidenceUnsorted).take 3).map (·.url) = ["u2", "u3", "u4"]
    ∧ (validate_sources [] evidenceUnsorted).map (·.link)
        ≠ ((rank_sources evidenceUnsorted).take 3).map (·.url) := by
  refine ⟨by decide, rfl, by decide, by decide, by decide⟩

/-- C2 (amended): when evidence is non-empty and zero cited sources
survive the matching filter, the validated sources are exactly the
first 3 evidence sources in input order (all of them if fewer than 3);
when the evidence list is sorted descending by reliability — as
`_rank_sources` guarantees for every list the pipeline passes to the
fact checker — these coincide with the top 3 by reliability. -/
theorem validate_sources_fallback_first3 (claimed : List CitedSource)
    (evidence : List EvidenceSource) (hne : evidence ≠ [])
    (hzero : matchedCitedSources claimed evidence = []) :
    validate_sources claimed evidence =
      (evidence.take 3).map (fun s =>
        { link := s.url
          excerpt := pyTake s.excerpt 500
          title := s.title
          reliability := s.reliability_score })
    ∧ (List.Pairwise relRank evidence →
        evidence.take 3 = (rank_sources evidence).take 3) := by
  constructor
  · show (validate_sources claimed evidence : List SourceReference) = _
    unfold validate_sources
    simp only [hzero]
    rw [if_pos ⟨trivial, hne⟩]
    apply List.take_of_length_le
    rw [List.length_map]
    calc (evidence.take 3).length ≤ 3 := by
          rw [List.length_take]; exact min_le_left _ _
      _ ≤ 10 := by norm_num
  · intro hsorted
    rw [rank_sources, List.Sorted.insertionSort_eq hsorted]

set_option maxRecDepth 8000 in
/-- Witness for C2's amended theorem at a concrete input: already
sorted evidence, no citations. -/
theorem validate_sources_fallback_first3_witness :
    validate_sources []
        [⟨"u2", "t2", "x2", none, "d2", 9/10, "article"⟩,
         ⟨"u3", "t3", "x3", none, "d3", 8/10, "article"⟩] =
      [{ link := "u2", excerpt := "x2", title := "t2", reliability := 9/10 },
       { link := "u3", excerpt := "x3", title := "t3", reliability := 8/10 }] := by
  have h := validate_sources_fallback_first3 []
    [⟨"u2", "t2", "x2", none, "d2", 9/10, "article"⟩,
     ⟨"u3", "t3", "x3", none, "d3", 8/10, "article"⟩]
    (by decide) rfl
  rw [h.1]
  decide

lemma deduplicate_sources_go_mem {s : EvidenceSource} :
    ∀ {l : List EvidenceSource} {seen : List String},
      s ∈ deduplicate_sources_go l seen →
      s.url ≠ "" ∧ s.url ∉ seen ∧ l.find? (fun t => t.url = s.url) = some s := by
  intro l
  induction l with
  | nil => intro seen h; simp [deduplicate_sources_go] at h
  | cons a l ih =>
    intro seen h
    unfold deduplicate_sources_go at h
    by_cases hk : a.url ≠ "" ∧ a.url ∉ seen
    · rw [if_pos hk] at h
      rcases List.mem_cons.mp h with rfl | h'
      · exact ⟨hk.1, hk.2, List.find?_cons_of_pos _ (by simp)⟩
      · obtain ⟨h1, h2, h3⟩ := ih h'
        have hau : s.url ∉ seen := fun hc => h2 (List.mem_cons_of_mem _ hc)
        have hne : a.url ≠ s.url := fun hc =>
          h2 (hc ▸ List.mem_cons_self _ _)
        exact ⟨h1, hau, by
          rw [List.find?_cons_of_neg _ (by simp [fun hc => hne hc])]
          exact h3⟩
    · rw [if_neg hk] at h
      obtain ⟨h1, h2, h3⟩ := ih h
      push_neg at hk
      have hne : a.url ≠ s.url := by
        by_cases hae : a.url = ""
        · exact fun hc => h1 (hc.symm.trans hae)
        · exact fun hc => h2 (hc ▸ hk hae)
      exact ⟨h1, h2, by
        rw [List.find?_cons_of_neg _ (by simp [fun hc => hne hc])]
        exact h3⟩

lemma deduplicate_sources_go_nodup :
    ∀ (l : List EvidenceSource) (seen : List String),
      ((deduplicate_sources_go l seen).map (·.url)).Nodup := by
  intro l
  induction l with
  | nil => intro seen; simp [deduplicate_sources_go]
  | cons a l ih =>
    intro seen
    unfold deduplicate_sources_go
    by_cases hk : a.url ≠ "" ∧ a.url ∉ seen
    · rw [if_pos hk]
      simp only [List.map_cons, List.nodup_cons]
      refine ⟨?_, ih _⟩
      intro hmem
      obtain ⟨s, hs, hu⟩ := List.mem_map.mp hmem
      have := (deduplicate_sources_go_mem hs).2.1
      exact this (hu ▸ List.mem_cons_self _ _)
    · rw [if_neg hk]; exact ih _

lemma deduplicate_sources_go_cover :
    ∀ (l : List EvidenceSource) (seen : List String) (u : String),
      u ≠ "" → u ∉ seen → (∃ s ∈ l, s.url = u) →
      ∃ s ∈ deduplicate_sources_go l seen, s.url = u := by
  intro l
  induction l with
  | nil => intro seen u _ _ h; simp at h
  | cons a l ih =>
    intro seen u hu hseen ⟨s, hs, hsu⟩
    unfold deduplicate_sources_go
    by_cases hk : a.url ≠ "" ∧ a.url ∉ seen
    · rw [if_pos hk]
      by_cases hau : a.url = u
      · exact ⟨a, List.mem_cons_self _ _, hau⟩
      · rcases List.mem_cons.mp hs with rfl | hs'
        · exact absurd hsu hau
        · obtain ⟨t, ht, htu⟩ := ih (a.url :: seen) u hu
            (by
              intro hc
              rcases List.mem_cons.mp hc with hc1 | hc2
              · exact hau hc1.symm
              · exact hseen hc2)
            ⟨s, hs', hsu⟩
          exact ⟨t, List.mem_cons_of_mem _ ht, htu⟩
    · rw [if_neg hk]
      push_neg at hk
      rcases List.mem_cons.mp hs with rfl | hs'
      · by_cases hae : s.url = ""
        · exact absurd (hsu ▸ hae) hu
        · exact absurd (hsu ▸ hk hae) hseen
      · exact ih seen u hu hseen ⟨s, hs', hsu⟩

/-- Counterexample for C5: the input contains an entry whose URL is
`""`, but deduplication returns no entry with that URL at all — the
`if url and ...` truthiness test silently drops empty-URL entries, so
the first-occurring entry with that URL is not preserved. -/
theorem deduplicate_sources_drops_empty_url :
    (∃ s ∈ [sourceEmptyUrl], s.url = "")
    ∧ deduplicate_sources [sourceEmptyUrl] = []
    ∧ ¬ ∃ s ∈ deduplicate_sources [sourceEmptyUrl], s.url = "" := by
  refine ⟨⟨sourceEmptyUrl, by decide, rfl⟩, by decide, by decide⟩

/-- C5 (amended): deduplication returns a list in which no two entries
have the same URL; every returned entry has a non-empty URL and is the
first-occurring input entry with that URL, with all of its fields
unchanged; and every non-empty URL present in the input is represented
in the output (entries whose URL is the empty string are dropped). -/
theorem deduplicate_sources_spec (sources : List EvidenceSource) :
    ((deduplicate_sources sources).map (·.url)).Nodup
    ∧ (∀ s ∈ deduplicate_sources sources,
        s.url ≠ "" ∧ sources.find? (fun t => t.url = s.url) = some s)
    ∧ (∀ u, u ≠ "" → (∃ s ∈ sources, s.url = u) →
        ∃ s ∈ deduplicate_sources sources, s.url = u) := by
  refine ⟨deduplicate_sources_go_nodup sources [], ?_, ?_⟩
  · intro s hs
    obtain ⟨h1, _, h3⟩ := deduplicate_sources_go_mem hs
    exact ⟨h1, h3⟩
  · intro u hu hex
    exact deduplicate_sources_go_cover sources [] u hu (by simp) hex

/-- Witness for C5's amended theorem at a concrete input with one
duplicate URL: the first occurrence survives with its fields. -/
theorem deduplicate_sources_spec_witness :
    ∃ s ∈ deduplicate_sources
        [⟨"u1", "first", "x", none, "d", 9/10, "article"⟩,
         ⟨"u1", "second", "y", none, "d", 1/10, "article"⟩],
      s.url = "u1" :=
  (deduplicate_sources_spec
      [⟨"u1", "first", "x", none, "d", 9/10, "article"⟩,
       ⟨"u1", "second", "y", none, "d", 1/10, "article"⟩]).2.2
    "u1" (by decide)
    ⟨⟨"u1", "first", "x", none, "d", 9/10, "article"⟩, by decide, rfl⟩

lemma sqdist_nonneg (u v : List ℚ) : 0 ≤ sqdist u v := by
  unfold sqdist
  apply List.sum_nonneg
  intro x hx
  obtain ⟨p, _, rfl⟩ := List.mem_map.mp hx
  exact sq_nonneg _

lemma sqdist_self (v : List ℚ) : sqdist v v = 0 := by
  induction v with
  | nil => rfl
  | cons a v ih =>
    show ((a - a) ^ 2) + sqdist v v = 0
    rw [ih, sub_self]
    norm_num

lemma mem_searchPairs {vectors : List (List ℚ)} {q : List ℚ} {p : ℕ × ℚ}
    (hp : p ∈ searchPairs vectors q) :
    p.1 < vectors.length ∧ ∃ v, vectors.get? p.1 = some v ∧ p.2 = sqdist v q := by
  unfold searchPairs at hp
  obtain ⟨i, hi, rfl⟩ := List.mem_map.mp hp
  have hlt : i < vectors.length := List.mem_range.mp hi
  refine ⟨hlt, vectors.get ⟨i, hlt⟩, ?_, ?_⟩
  · exact List.get?_eq_get hlt
  · rw [List.getD_eq_get?, List.get?_eq_get hlt]
    rfl

lemma searchPairs_mem_of_get {vectors : List (List ℚ)} {q : List ℚ} {j : ℕ}
    (hj : vectors.get? j = some q) : (j, sqdist q q) ∈ searchPairs vectors q := by
  unfold searchPairs
  have hlt : j < vectors.length := (List.get?_eq_some.mp hj).1
  refine List.mem_map.mpr ⟨j, List.mem_range.mpr hlt, ?_⟩
  rw [List.getD_eq_get?, hj]
  rfl

/-- Counterexample for C7.  FAISS `IndexFlatL2.search` returns squared
L2 distances, and the service computes `1 / (1 + distance)` on them:
for the entry at Euclidean distance 2 from the query (squared distance
`2 ^ 2 = 4`) the returned similarity is `1/5`, not `1/(1+2) = 1/3` as
the claim's formula `1/(1+d)` for the Euclidean distance `d` predicts.
Moreover, with two identical inserted vectors and `k = 1`, a query
identical to the second of them yields only the entry of the first, so
the search does not always yield the queried entry itself. -/
theorem find_similar_not_inverse_euclidean :
    find_similar_claims ctrIndex [2, 0] 3 (mkRat 1 10) =
      [⟨"c2", "t2", 1⟩, ⟨"c0", "t0", mkRat 1 5⟩, ⟨"c1", "t1", mkRat 1 5⟩]
    ∧ sqdist [(0 : ℚ), 0] [2, 0] = 4
    ∧ ((2 : ℚ)) ^ 2 = 4
    ∧ (0 : ℚ) ≤ 2
    ∧ mkRat 1 5 ≠ 1 / (1 + 2)
    ∧ ctrIndex.vectors.get? 1 = some [0, 0]
    ∧ find_similar_claims ctrIndex [0, 0] 1 (mkRat 1 10) = [⟨"c0", "t0", 1⟩] := by
  refine ⟨by decide, by decide, by decide, by decide, by decide, by decide, by decide⟩

/-- C7 (amended): for every non-empty index whose metadata is in sync
with its vectors, a similarity search with `k ≥ 1` and `threshold ≤ 1`
whose query embedding is identical to a previously inserted vector
returns, as its first result, an entry whose stored vector is at
squared distance 0 from the query, with similarity score 1.0; every
returned similarity equals `1 / (1 + s)` for the squared Euclidean
distance `s` between the query and that entry's stored vector (FAISS
returns squared L2 distances), hence lies in (0, 1], so 1.0 is the
maximum among returned scores. -/
theorem find_similar_exact_match (idx : EmbIndex) (q : List ℚ) (k : ℕ)
    (threshold : ℚ) (j : ℕ) (hj : idx.vectors.get? j = some q)
    (hmeta : idx.metadata.length = idx.vectors.length)
    (hk : 1 ≤ k) (hthr : threshold ≤ 1) :
    (∃ r rest, find_similar_claims idx q k threshold = r :: rest
      ∧ r.similarity_score = 1
      ∧ ∃ i v m, idx.vectors.get? i = some v ∧ sqdist v q = 0
          ∧ idx.metadata.get? i = some m ∧ r.claim_id = m.claim_id)
    ∧ ∀ r ∈ find_similar_claims idx q k threshold,
        0 < r.similarity_score ∧ r.similarity_score ≤ 1
        ∧ ∃ i v m, idx.vectors.get? i = some v ∧ idx.metadata.get? i = some m
            ∧ r.claim_id = m.claim_id ∧ r.claim_text = m.claim_text
            ∧ r.similarity_score = 1 / (1 + sqdist v q) := by
  have hjlt : j < idx.vectors.length := (List.get?_eq_some.mp hj).1
  have hn : 0 < idx.vectors.length := Nat.lt_of_le_of_lt (Nat.zero_le j) hjlt
  have hne0 : ¬ idx.vectors.length = 0 := Nat.pos_iff_ne_zero.mp hn
  have heq : find_similar_claims idx q k threshold =
      ((List.insertionSort distLE (searchPairs idx.vectors q)).take
        (min k idx.vectors.length)).filterMap (simFilter idx.metadata threshold) := by
    unfold find_similar_claims
    rw [if_neg hne0]
  have hperm : List.Perm (List.insertionSort distLE (searchPairs idx.vectors q))
      (searchPairs idx.vectors q) := List.perm_insertionSort _ _
  have hsort : List.Sorted distLE (List.insertionSort distLE (searchPairs idx.vectors q)) :=
    List.sorted_insertionSort _ _
  have hlenp : (searchPairs idx.vectors q).length = idx.vectors.length := by
    unfold searchPairs
    rw [List.length_map, List.length_range]
  have hmem0 : (j, (0 : ℚ)) ∈ searchPairs idx.vectors q := by
    have := searchPairs_mem_of_get hj
    rwa [sqdist_self] at this
  -- the sorted list is non-empty
  obtain ⟨h, t, hs⟩ : ∃ h t, List.insertionSort distLE (searchPairs idx.vectors q) = h :: t := by
    cases hcase : List.insertionSort distLE (searchPairs idx.vectors q) with
    | nil =>
      exfalso
      have := hperm.length_eq
      rw [hcase, hlenp] at this
      exact hne0 this.symm
    | cons h t => exact ⟨h, t, rfl⟩
  have hmemh : h ∈ searchPairs idx.vectors q :=
    hperm.subset (hs ▸ List.mem_cons_self _ _)
  obtain ⟨hhlt, vh, hvh, hdh⟩ := mem_searchPairs hmemh
  have hh0 : h.2 = 0 := by
    have hle : h.2 ≤ 0 := by
      have hmem0' : (j, (0 : ℚ)) ∈ h :: t := by
        rw [← hs]
        exact hperm.mem_iff.mpr hmem0
      rcases List.mem_cons.mp hmem0' with heq' | hint
      · exact (congrArg Prod.snd heq').ge
      · have hsc : List.Sorted distLE (h :: t) := by rw [← hs]; exact hsort
        exact (List.sorted_cons.mp hsc).1 _ hint
    have hge : 0 ≤ h.2 := hdh ▸ sqdist_nonneg vh q
    exact le_antisymm hle hge
  have hkk : 1 ≤ min k idx.vectors.length := le_min hk hn
  obtain ⟨kp, hkp⟩ : ∃ m, min k idx.vectors.length = m + 1 :=
    ⟨min k idx.vectors.length - 1, (Nat.succ_pred_eq_of_pos hkk).symm⟩
  have htake : (List.insertionSort distLE (searchPairs idx.vectors q)).take
      (min k idx.vectors.length) = h :: t.take kp := by
    rw [hs, hkp, List.take_succ_cons]
  obtain ⟨m0, hm0⟩ : ∃ m0, idx.metadata.get? h.1 = some m0 := by
    have : h.1 < idx.metadata.length := hmeta ▸ hhlt
    exact ⟨_, List.get?_eq_get this⟩
  have hsim1 : (1 : ℚ) / (1 + h.2) = 1 := by rw [hh0]; norm_num
  have hfh : simFilter idx.metadata threshold h =
      some ⟨m0.claim_id, m0.claim_text, 1⟩ := by
    unfold simFilter
    rw [hm0]
    simp only [hsim1]
    rw [if_pos hthr]
  have hres : find_similar_claims idx q k threshold =
      ⟨m0.claim_id, m0.claim_text, 1⟩ ::
        (t.take kp).filterMap (simFilter idx.metadata threshold) := by
    rw [heq, htake, List.filterMap_cons, hfh]
  constructor
  · refine ⟨_, _, hres, rfl, h.1, vh, m0, hvh, ?_, hm0, rfl⟩
    rw [← hdh, hh0]
  · intro r hr
    rw [heq] at hr
    obtain ⟨p, hp, hf⟩ := List.mem_filterMap.mp hr
    have hpp : p ∈ searchPairs idx.vectors q :=
      hperm.subset (List.mem_of_mem_take hp)
    obtain ⟨hplt, v, hv, hd⟩ := mem_searchPairs hpp
    obtain ⟨mp, hmp⟩ : ∃ mp, idx.metadata.get? p.1 = some mp := by
      have : p.1 < idx.metadata.length := hmeta ▸ hplt
      exact ⟨_, List.get?_eq_get this⟩
    simp only [simFilter, hmp] at hf
    by_cases hthr' : threshold ≤ 1 / (1 + p.2)
    · rw [if_pos hthr'] at hf
      have hr' : r = ⟨mp.claim_id, mp.claim_text, 1 / (1 + p.2)⟩ :=
        (Option.some.injEq _ _ ▸ hf).symm
      have hdpos : (0 : ℚ) < 1 + p.2 := by
        have := hd ▸ sqdist_nonneg v q
        linarith
      subst hr'
      refine ⟨div_pos one_pos hdpos, ?_, p.1, v, mp, hv, hmp, rfl, rfl, by rw [hd]⟩
      rw [div_le_one hdpos]
      have := hd ▸ sqdist_nonneg v q
      linarith
    · rw [if_neg hthr'] at hf
      exact absurd hf (by simp)

/-- Witness for C7's amended theorem at a concrete input: querying the
index with a stored vector puts similarity 1.0 first. -/
theorem find_similar_exact_match_witness :
    ((find_similar_claims wIdx [1, 0] 5 (mkRat 1 2)).head?).map
      (·.similarity_score) = some 1 := by
  obtain ⟨⟨r, rest, h1, h2, _⟩, _⟩ :=
    find_similar_exact_match wIdx [1, 0] 5 (mkRat 1 2) 1 rfl rfl
      (by decide) (by decide)
  rw [h1]
  simp [h2]

lemma distinctAux_subset [DecidableEq α] {x : α} :
    ∀ {l seen : List α}, x ∈ distinctAux l seen → x ∈ l := by
  intro l
  induction l with
  | nil => intro seen h; simp [distinctAux] at h
  | cons a l ih =>
    intro seen h
    unfold distinctAux at h
    by_cases hk : a ∈ seen
    · rw [if_pos hk] at h
      exact List.mem_cons_of_mem _ (ih h)
    · rw [if_neg hk] at h
      rcases List.mem_cons.mp h with rfl | h'
      · exact List.mem_cons_self _ _
      · exact List.mem_cons_of_mem _ (ih h')

lemma zip3_map_third {α β γ : Type} :
    ∀ (as : List α) (bs : List β) (cs : List γ),
      as.length = cs.length → bs.length = cs.length →
      (zip3 as bs cs).map (fun t => t.2.2) = cs := by
  intro as
  induction as with
  | nil =>
    intro bs cs h1 _
    have : cs = [] := List.length_eq_zero.mp h1.symm
    subst this
    rfl
  | cons a as ih =>
    intro bs cs h1 h2
    cases cs with
    | nil => exact absurd h1 (by simp)
    | cons c cs =>
      cases bs with
      | nil => exact absurd h2 (by simp)
      | cons b bs =>
        show c :: (zip3 as bs cs).map (fun t => t.2.2) = c :: cs
        rw [ih bs cs (by simpa using h1) (by simpa using h2)]

lemma zip3_filter_third_length {α β γ : Type} (p : γ → Bool) :
    ∀ (as : List α) (bs : List β) (cs : List γ),
      as.length = cs.length → bs.length = cs.length →
      ((zip3 as bs cs).filter (fun t => p t.2.2)).length = (cs.filter p).length := by
  intro as
  induction as with
  | nil =>
    intro bs cs h1 _
    have : cs = [] := List.length_eq_zero.mp h1.symm
    subst this
    rfl
  | cons a as ih =>
    intro bs cs h1 h2
    cases cs with
    | nil => exact absurd h1 (by simp)
    | cons c cs =>
      cases bs with
      | nil => exact absurd h2 (by simp)
      | cons b bs =>
        show (List.filter (fun t => p t.2.2) ((a, b, c) :: zip3 as bs cs)).length
          = (List.filter p (c :: cs)).length
        rw [List.filter_cons, List.filter_cons]
        by_cases hp : p c
        · simp only [hp, if_pos]
          simp only [List.length_cons]
          rw [ih bs cs (by simpa using h1) (by simpa using h2)]
        · simp only [hp]
          simp only [if_neg, Bool.false_eq_true, not_false_iff]
          exact ih bs cs (by simpa using h1) (by simpa using h2)

lemma count_eq_filter_decide (cs : List ℤ) (lab : ℤ) :
    (cs.filter (fun c => decide (c = lab))).length = cs.count lab := by
  induction cs with
  | nil => rfl
  | cons c cs ih =>
    rw [List.count_cons, List.filter_cons]
    by_cases hc : c = lab
    · simp [hc, ih]
    · simp [hc, ih]

lemma run_hdbscan_clustering_min_size (fit : List (List ℚ) → List ℤ) (ts : ℕ)
    (emb : List (List ℚ)) (ids texts : List String) (n : ℕ)
    (hlen1 : ids.length = (fit emb).length) (hlen2 : texts.length = (fit emb).length)
    (Hcount : ∀ lab, lab ∈ fit emb → lab ≠ -1 → n ≤ (fit emb).count lab) :
    ∀ cl ∈ run_hdbscan_clustering fit ts emb ids texts, n ≤ cl.claim_count := by
  intro cl hcl
  simp only [run_hdbscan_clustering] at hcl
  obtain ⟨lab, hlab, rfl⟩ := List.mem_map.mp hcl
  have hlabf : lab ∈ ((zip3 ids texts (fit emb)).map (fun t => t.2.2)).filter (· ≠ -1) :=
    distinctAux_subset hlab
  have hlabm : lab ∈ (zip3 ids texts (fit emb)).map (fun t => t.2.2) :=
    List.mem_of_mem_filter hlabf
  have hlabne : lab ≠ -1 := by simpa using List.of_mem_filter hlabf
  have hlabin : lab ∈ fit emb := by
    rwa [zip3_map_third ids texts (fit emb) hlen1 hlen2] at hlabm
  show n ≤ (format_cluster lab ts _).claim_count
  simp only [format_cluster, List.length_map]
  rw [zip3_filter_third_length (fun c => decide (c = lab)) ids texts (fit emb)
    hlen1 hlen2, count_eq_filter_decide]
  exact Hcount lab hlabin hlabne

set_option maxHeartbeats 1000000 in
/-- C8: under the HDBSCAN contract for this call's input — one label
per embedded point, and every non-noise label carried by at least
`min_cluster_size` points — every cluster returned by
`cluster_recent_claims` has at least `min_cluster_size` member claims;
and when fewer than `min_cluster_size` eligible claims (in the window,
with a non-null embedding) exist, the call returns the empty list
rather than an error. -/
theorem cluster_recent_claims_min_size (db : List ClaimRec) (cutoff_time : ℤ)
    (min_cluster_size : ℕ) (fit : List (List ℚ) → List ℤ) (ts : ℕ)
    (Hlen : (fit (clusterEmbeddings db cutoff_time)).length
      = (clusterEmbeddings db cutoff_time).length)
    (Hcount : ∀ lab, lab ∈ fit (clusterEmbeddings db cutoff_time) → lab ≠ -1 →
      min_cluster_size ≤ (fit (clusterEmbeddings db cutoff_time)).count lab) :
    (∀ cl ∈ cluster_recent_claims db cutoff_time min_cluster_size fit ts,
        min_cluster_size ≤ cl.claim_count)
    ∧ ((eligibleClaims db cutoff_time).length < min_cluster_size →
        cluster_recent_claims db cutoff_time min_cluster_size fit ts = []) := by
  constructor
  · intro cl hcl
    unfold cluster_recent_claims at hcl
    by_cases hg : ((eligibleClaims db cutoff_time).take 1000).length < min_cluster_size
    · rw [if_pos hg] at hcl
      simp at hcl
    · rw [if_neg hg] at hcl
      refine run_hdbscan_clustering_min_size fit ts
        (clusterEmbeddings db cutoff_time)
        ((clusterInput db cutoff_time).map (·.id))
        ((clusterInput db cutoff_time).map (·.claim_text))
        min_cluster_size ?_ ?_ Hcount cl hcl
      · rw [List.length_map, Hlen]
        simp [clusterEmbeddings]
      · rw [List.length_map, Hlen]
        simp [clusterEmbeddings]
  · intro hlt
    unfold cluster_recent_claims
    rw [if_pos]
    calc ((eligibleClaims db cutoff_time).take 1000).length
        ≤ (eligibleClaims db cutoff_time).length := by
          rw [List.length_take]; exact min_le_right _ _
      _ < min_cluster_size := hlt

/-- Witness for C8 at a concrete input: an empty claim store has fewer
than 3 eligible claims, so the clustering call returns no clusters. -/
theorem cluster_recent_claims_min_size_witness :
    cluster_recent_claims [] 5 3 (fun _ => ([] : List ℤ)) 1700000000 = [] :=
  (cluster_recent_claims_min_size [] 5 3 (fun _ => ([] : List ℤ)) 1700000000
    rfl (fun lab hl _ => absurd hl (by simp))).2 (by decide)

lemma find?_update_assoc (l : List (String × ClaimDoc)) (cid k : String)
    (f : ClaimDoc → ClaimDoc) :
    ((l.map (fun p => if p.1 = cid then (p.1, f p.2) else p)).find?
        (fun p => p.1 = k)).map (·.2)
      = if k = cid then ((l.find? (fun p => p.1 = k)).map (·.2)).map f
        else (l.find? (fun p => p.1 = k)).map (·.2) := by
  induction l with
  | nil => simp
  | cons a l ih =>
    by_cases hac : a.1 = cid
    · rw [List.map_cons, if_pos hac]
      by_cases hak : a.1 = k
      · have hkc : k = cid := hak ▸ hac
        rw [List.find?_cons_of_pos _ (by simp [hak]),
          List.find?_cons_of_pos _ (by simp [hak]), if_pos hkc]
        rfl
      · rw [List.find?_cons_of_neg _ (by simp [hak]),
          List.find?_cons_of_neg _ (by simp [hak]), ih]
    · rw [List.map_cons, if_neg hac]
      by_cases hak : a.1 = k
      · have hkc : ¬ k = cid := fun hk => hac (hak.trans hk)
        rw [List.find?_cons_of_pos _ (by simp [hak]),
          List.find?_cons_of_pos _ (by simp [hak]), if_neg hkc]
      · rw [List.find?_cons_of_neg _ (by simp [hak]),
          List.find?_cons_of_neg _ (by simp [hak]), ih]

lemma findDoc_updateClaim (s : VState) (cid k : String) (f : ClaimDoc → ClaimDoc) :
    findDoc k (updateClaim s cid f).claims
      = if k = cid then (findDoc k s.claims).map f else findDoc k s.claims := by
  unfold updateClaim findDoc
  exact find?_update_assoc s.claims cid k f

lemma findDoc_append_of_some {α : Type} {l : List (String × α)} {k : String} {x : α}
    (h : findDoc k l = some x) (m : List (String × α)) :
    findDoc k (l ++ m) = some x := by
  induction l with
  | nil => simp [findDoc] at h
  | cons a l ih =>
    unfold findDoc at h ⊢
    by_cases hak : a.1 = k
    · rw [List.find?_cons_of_pos _ (by simp [hak])] at h
      rw [List.cons_append, List.find?_cons_of_pos _ (by simp [hak])]
      exact h
    · rw [List.find?_cons_of_neg _ (by simp [hak])] at h
      rw [List.cons_append, List.find?_cons_of_neg _ (by simp [hak])]
      exact ih h

lemma findDoc_append_singleton_isSome {α : Type} (l : List (String × α)) (k : String) (x : α) :
    (findDoc k (l ++ [(k, x)])).isSome := by
  induction l with
  | nil => simp [findDoc]
  | cons a l ih =>
    unfold findDoc at ih ⊢
    by_cases hak : a.1 = k
    · rw [List.cons_append, List.find?_cons_of_pos _ (by simp [hak])]
      rfl
    · rw [List.cons_append, List.find?_cons_of_neg _ (by simp [hak])]
      exact ih

lemma WFState_updateClaim_of_ne (s : VState) (cid : String) (f : ClaimDoc → ClaimDoc)
    (hW : WFState s) (hf : ∀ c, (f c).status ≠ "verified") :
    WFState (updateClaim s cid f) := by
  intro k c hfind hstat
  rw [findDoc_updateClaim] at hfind
  by_cases hk : k = cid
  · rw [if_pos hk] at hfind
    cases hc0 : findDoc k s.claims with
    | none => rw [hc0] at hfind; exact absurd hfind (by simp)
    | some c0 =>
      rw [hc0] at hfind
      have : c = f c0 := by simpa using hfind.symm
      exact absurd (this ▸ hstat) (hf c0)
  · rw [if_neg hk] at hfind
    exact hW k c hfind hstat

lemma WFState_verdictState (s : VState) (vid : String) (vd : VerdictDoc)
    (hW : WFState s) : WFState (verdictState s vid vd) := by
  intro k c hfind hstat
  obtain ⟨v, hv, hsome⟩ := hW k c hfind hstat
  refine ⟨v, hv, ?_⟩
  obtain ⟨x, hx⟩ := Option.isSome_iff_exists.mp hsome
  show (findDoc v (s.verdicts ++ [(vid, vd)])).isSome
  rw [findDoc_append_of_some hx]
  rfl

lemma verify_claim_shape (s0 : VState) (cid : String) (force : Bool)
    (ev : EvidenceResult) (gen : Except String RawVerdict) (new_vid : String) (now : ℤ) :
    (findDoc cid s0.claims = none ∧
      verify_claim s0 cid force ev gen new_vid now = ⟨.notFound, [], []⟩)
    ∨ (∃ c r, findDoc cid s0.claims = some c ∧
      cachedResponse s0 cid c force = some r ∧
      verify_claim s0 cid force ev gen new_vid now = ⟨.cached r, [], []⟩)
    ∨ (∃ c e, findDoc cid s0.claims = some c ∧
      cachedResponse s0 cid c force = none ∧ ev = .failed e ∧
      verify_claim s0 cid force ev gen new_vid now =
        ⟨.errored,
          [processingState s0 cid now,
           errorState (processingState s0 cid now) cid now],
          [.retrieveEvidence]⟩)
    ∨ (∃ c srcs tot qs, findDoc cid s0.claims = some c ∧
      cachedResponse s0 cid c force = none ∧ ev = .ok srcs tot qs ∧
      mkVerdictInDB cid (fact_check gen srcs) now = none ∧
      verify_claim s0 cid force ev gen new_vid now =
        ⟨.errored,
          [processingState s0 cid now,
           evidenceState (processingState s0 cid now) cid srcs tot qs now,
           errorState (evidenceState (processingState s0 cid now) cid srcs tot qs now) cid now],
          [.retrieveEvidence, .factCheckCall]⟩)
    ∨ (∃ c srcs tot qs vd, findDoc cid s0.claims = some c ∧
      cachedResponse s0 cid c force = none ∧ ev = .ok srcs tot qs ∧
      mkVerdictInDB cid (fact_check gen srcs) now = some vd ∧
      verify_claim s0 cid force ev gen new_vid now =
        ⟨.verified (newResponse new_vid cid (fact_check gen srcs) now),
          [processingState s0 cid now,
           evidenceState (processingState s0 cid now) cid srcs tot qs now,
           verdictState (evidenceState (processingState s0 cid now) cid srcs tot qs now) new_vid vd,
           verifiedState (verdictState (evidenceState (processingState s0 cid now) cid srcs tot qs now) new_vid vd) cid new_vid now,
           alertState (verifiedState (verdictState (evidenceState (processingState s0 cid now) cid srcs tot qs now) new_vid vd) cid new_vid now) cid c.claim_text (fact_check gen srcs) now],
          [.retrieveEvidence, .factCheckCall]⟩) := by
  cases hfc : findDoc cid s0.claims with
  | none =>
    left
    exact ⟨rfl, by simp only [verify_claim, hfc]⟩
  | some c =>
    cases hcr : cachedResponse s0 cid c force with
    | some r =>
      right; left
      exact ⟨c, r, rfl, hcr, by simp only [verify_claim, hfc, hcr]⟩
    | none =>
      cases ev with
      | failed e =>
        right; right; left
        exact ⟨c, e, rfl, hcr, rfl, by simp only [verify_claim, hfc, hcr]⟩
      | ok srcs tot qs =>
        cases hmk : mkVerdictInDB cid (fact_check gen srcs) now with
        | none =>
          right; right; right; left
          exact ⟨c, srcs, tot, qs, rfl, hcr, rfl, hmk,
            by simp only [verify_claim, hfc, hcr, hmk]⟩
        | some vd =>
          right; right; right; right
          exact ⟨c, srcs, tot, qs, vd, rfl, hcr, rfl, hmk,
            by simp only [verify_claim, hfc, hcr, hmk]⟩

/-- C10: when the claim already has a truthy `verdict_id` referring to
an existing verdict record and `force_reverify` is false, the call
returns the stored verdict: no evidence retrieval, no verdict
generation, no write of any kind (the run's state and action traces
are empty, and the database is left exactly as it was). -/
theorem verify_claim_cached (s0 : VState) (cid : String) (ev : EvidenceResult)
    (gen : Except String RawVerdict) (new_vid : String) (now : ℤ)
    (c : ClaimDoc) (v : String) (vd : VerdictDoc)
    (hc : findDoc cid s0.claims = some c)
    (hvid : c.verdict_id = some v) (hv : v ≠ "")
    (hvd : findDoc v s0.verdicts = some vd) :
    verify_claim s0 cid false ev gen new_vid now =
      ⟨.cached (storedResponse v cid vd), [], []⟩
    ∧ lastState s0 (verify_claim s0 cid false ev gen new_vid now) = s0 := by
  have hcr : cachedResponse s0 cid c false = some (storedResponse v cid vd) := by
    simp only [cachedResponse, hvid]
    rw [if_pos hv, hvd]
    rfl
  have hrun : verify_claim s0 cid false ev gen new_vid now =
      ⟨.cached (storedResponse v cid vd), [], []⟩ := by
    simp only [verify_claim, hc, hcr]
  exact ⟨hrun, by rw [hrun]; rfl⟩

/-- Witness for C10 at a concrete input: the stored verdict is
returned untouched even when retrieval and generation would fail. -/
theorem verify_claim_cached_witness :
    verify_claim wStateCached "c1" false (.failed "boom") (.error "x") "v9" 9
      = ⟨.cached (storedResponse "v0" "c1" wVerdictDoc), [], []⟩ :=
  (verify_claim_cached wStateCached "c1" (.failed "boom") (.error "x") "v9" 9
    { wClaim with verdict_id := some "v0", status := "verified" }
    "v0" wVerdictDoc rfl rfl (by decide) rfl).1

/-- C4: for every successful verification (the run ends with outcome
`verified`), an alert is written if and only if the verdict's harm
score is at least 70, and the written alert's severity is "critical"
when the harm score is at least 90 and "high" otherwise; below 70 the
alert store is untouched. -/
theorem verify_claim_alert_iff (s0 : VState) (cid : String) (force : Bool)
    (ev : EvidenceResult) (gen : Except String RawVerdict) (new_vid : String)
    (now : ℤ) (resp : VerdictResponse) (c : ClaimDoc)
    (hc : findDoc cid s0.claims = some c)
    (h : (verify_claim s0 cid force ev gen new_vid now).outcome = .verified resp) :
    (70 ≤ resp.harm_score →
      (lastState s0 (verify_claim s0 cid force ev gen new_vid now)).alerts
        = s0.alerts ++
          [{ alert_type := "high_impact"
             title := "High Harm Score Detected: " ++ resp.verdict
             description := "Claim: " ++ pyTake c.claim_text 200
             severity := if resp.harm_score < 90 then "high" else "critical"
             related_claim_ids := [cid]
             is_active := true
             created_at := now }])
    ∧ (resp.harm_score < 70 →
      (lastState s0 (verify_claim s0 cid force ev gen new_vid now)).alerts
        = s0.alerts) := by
  rcases verify_claim_shape s0 cid force ev gen new_vid now with
    ⟨hn, heq⟩ | ⟨c', r, _, _, heq⟩ | ⟨c', e, _, _, _, heq⟩ |
    ⟨c', srcs, tot, qs, _, _, _, _, heq⟩ |
    ⟨c', srcs, tot, qs, vd, hfc, hcr, hev, hmk, heq⟩
  · rw [hn] at hc; exact absurd hc (by simp)
  · rw [heq] at h; exact absurd h (by simp)
  · rw [heq] at h; exact absurd h (by simp)
  · rw [heq] at h; exact absurd h (by simp)
  · have hcc : c' = c := by
      rw [hfc] at hc
      exact Option.some.inj hc
    subst hcc
    rw [heq] at h
    have h' : Outcome.verified (newResponse new_vid cid (fact_check gen srcs) now)
        = Outcome.verified resp := h
    have hresp : newResponse new_vid cid (fact_check gen srcs) now = resp := by
      injection h'
    subst hresp
    constructor
    · intro hge
      rw [heq]
      show (alertState _ cid _ (fact_check gen srcs) now).alerts = _
      unfold alertState
      rw [if_pos (show (70 : ℤ) ≤ (fact_check gen srcs).harm_score from hge)]
      rfl
    · intro hlt
      rw [heq]
      show (alertState _ cid _ (fact_check gen srcs) now).alerts = _
      unfold alertState
      rw [if_neg (not_le.mpr
        (show (fact_check gen srcs).harm_score < 70 from hlt))]
      rfl

set_option maxRecDepth 8000 in
/-- Witness for C4 at a concrete input: a successful run with harm
score 95 appends exactly one alert, with severity "critical". -/
theorem verify_claim_alert_iff_witness :
    (lastState wState
        (verify_claim wState "c1" false (.ok [wEvidenceSrc] 1 ["q"]) (.ok wRaw) "v1" 5)).alerts
      = wState.alerts ++
        [{ alert_type := "high_impact"
           title := "High Harm Score Detected: False"
           description := "Claim: " ++ pyTake wClaim.claim_text 200
           severity := "critical"
           related_claim_ids := ["c1"]
           is_active := true
           created_at := 5 }] := by
  have h := (verify_claim_alert_iff wState "c1" false (.ok [wEvidenceSrc] 1 ["q"])
      (.ok wRaw) "v1" 5
      (newResponse "v1" "c1" (fact_check (.ok wRaw) [wEvidenceSrc]) 5) wClaim
      (by decide) (by decide)).1 (by decide)
  rw [h]
  decide

lemma not_verified_after_update (s : VState) (cid : String) (f : ClaimDoc → ClaimDoc)
    (hf : ∀ c, (f c).status ≠ "verified") (c : ClaimDoc)
    (hfind : findDoc cid (updateClaim s cid f).claims = some c) :
    c.status ≠ "verified" := by
  rw [findDoc_updateClaim, if_pos rfl] at hfind
  cases h0 : findDoc cid s.claims with
  | none => rw [h0] at hfind; exact absurd hfind (by simp)
  | some c0 =>
    rw [h0] at hfind
    have hcf : c = f c0 := by simpa using hfind.symm
    rw [hcf]
    exact hf c0

lemma WFState_verifiedState (s : VState) (cid new_vid : String) (now : ℤ)
    (hW : WFState s) (hvd : (findDoc new_vid s.verdicts).isSome) :
    WFState (verifiedState s cid new_vid now) := by
  intro k c hfind hstat
  rw [verifiedState, findDoc_updateClaim] at hfind
  by_cases hk : k = cid
  · rw [if_pos hk] at hfind
    cases h0 : findDoc k s.claims with
    | none => rw [h0] at hfind; exact absurd hfind (by simp)
    | some c0 =>
      rw [h0] at hfind
      have hcf : c = { c0 with verdict_id := some new_vid, status := "verified", updated_at := now } := by
        simpa using hfind.symm
      exact ⟨new_vid, by rw [hcf], hvd⟩
  · rw [if_neg hk] at hfind
    exact hW k c hfind hstat

lemma WFState_alertState (s : VState) (cid ct : String) (vr : Verdict) (now : ℤ)
    (hW : WFState s) : WFState (alertState s cid ct vr now) := by
  unfold alertState
  split
  · exact fun k c hfind hstat => hW k c hfind hstat
  · exact hW

/-- C9: starting from any well-formed store (every verified claim's
`verdict_id` resolves to a stored verdict), every intermediate state an
observer can read during a verification run is well-formed again; and
— without any assumption on the initial store — at no intermediate
state of the run is the claim marked "verified" with the run's new
verdict id unless that verdict record is already present in the
verdict store: the verdict insert strictly precedes the
verified-status update. -/
theorem verify_claim_verdict_write_order (s0 : VState) (cid : String) (force : Bool)
    (ev : EvidenceResult) (gen : Except String RawVerdict) (new_vid : String) (now : ℤ) :
    (WFState s0 →
      ∀ s ∈ (verify_claim s0 cid force ev gen new_vid now).states, WFState s)
    ∧ (∀ s ∈ (verify_claim s0 cid force ev gen new_vid now).states,
        ∀ c, findDoc cid s.claims = some c → c.status = "verified" →
          c.verdict_id = some new_vid → (findDoc new_vid s.verdicts).isSome) := by
  have hproc : ∀ c : ClaimDoc,
      ({ c with status := "processing", updated_at := now } : ClaimDoc).status
        ≠ "verified" := fun _ => show ("processing" : String) ≠ "verified" by decide
  have herr : ∀ c : ClaimDoc,
      ({ c with status := "error", updated_at := now } : ClaimDoc).status
        ≠ "verified" := fun _ => show ("error" : String) ≠ "verified" by decide
  rcases verify_claim_shape s0 cid force ev gen new_vid now with
    ⟨hn, heq⟩ | ⟨c', r, _, _, heq⟩ | ⟨c', e, hfc, hcr, hev, heq⟩ |
    ⟨c', srcs, tot, qs, hfc, hcr, hev, hmk, heq⟩ |
    ⟨c', srcs, tot, qs, vd, hfc, hcr, hev, hmk, heq⟩
  · rw [heq]
    exact ⟨fun _ s hs => absurd hs (by simp), fun s hs => absurd hs (by simp)⟩
  · rw [heq]
    exact ⟨fun _ s hs => absurd hs (by simp), fun s hs => absurd hs (by simp)⟩
  · rw [heq]
    constructor
    · intro hW s hs
      simp only [List.mem_cons, List.not_mem_nil, or_false] at hs
      have hW1 : WFState (processingState s0 cid now) :=
        WFState_updateClaim_of_ne s0 cid _ hW hproc
      rcases hs with rfl | rfl
      · exact hW1
      · exact WFState_updateClaim_of_ne _ cid _ hW1 herr
    · intro s hs c hfind hstat _
      simp only [List.mem_cons, List.not_mem_nil, or_false] at hs
      rcases hs with rfl | rfl
      · exact absurd hstat (not_verified_after_update s0 cid _ hproc c hfind)
      · exact absurd hstat
          (not_verified_after_update (processingState s0 cid now) cid _ herr c hfind)
  · rw [heq]
    constructor
    · intro hW s hs
      simp only [List.mem_cons, List.not_mem_nil, or_false] at hs
      have hW1 : WFState (processingState s0 cid now) :=
        WFState_updateClaim_of_ne s0 cid _ hW hproc
      have hW2 : WFState (evidenceState (processingState s0 cid now) cid srcs tot qs now) :=
        fun k c h1 h2 => hW1 k c h1 h2
      rcases hs with rfl | rfl | rfl
      · exact hW1
      · exact hW2
      · exact WFState_updateClaim_of_ne _ cid _ hW2 herr
    · intro s hs c hfind hstat _
      simp only [List.mem_cons, List.not_mem_nil, or_false] at hs
      rcases hs with rfl | rfl | rfl
      · exact absurd hstat (not_verified_after_update s0 cid _ hproc c hfind)
      · exact absurd hstat (not_verified_after_update s0 cid _ hproc c hfind)
      · exact absurd hstat
          (not_verified_after_update
            (evidenceState (processingState s0 cid now) cid srcs tot qs now) cid _ herr c hfind)
  · rw [heq]
    have hvd2 : (findDoc new_vid
        (verdictState (evidenceState (processingState s0 cid now) cid srcs tot qs now)
          new_vid vd).verdicts).isSome :=
      findDoc_append_singleton_isSome _ new_vid vd
    constructor
    · intro hW s hs
      simp only [List.mem_cons, List.not_mem_nil, or_false] at hs
      have hW1 : WFState (processingState s0 cid now) :=
        WFState_updateClaim_of_ne s0 cid _ hW hproc
      have hW2 : WFState (evidenceState (processingState s0 cid now) cid srcs tot qs now) :=
        fun k c h1 h2 => hW1 k c h1 h2
      have hW3 : WFState (verdictState
          (evidenceState (processingState s0 cid now) cid srcs tot qs now) new_vid vd) :=
        WFState_verdictState _ new_vid vd hW2
      have hW4 : WFState (verifiedState
          (verdictState (evidenceState (processingState s0 cid now) cid srcs tot qs now)
            new_vid vd) cid new_vid now) :=
        WFState_verifiedState _ cid new_vid now hW3 hvd2
      rcases hs with rfl | rfl | rfl | rfl | rfl
      · exact hW1
      · exact hW2
      · exact hW3
      · exact hW4
      · exact WFState_alertState _ cid _ _ now hW4
    · intro s hs c hfind hstat _
      simp only [List.mem_cons, List.not_mem_nil, or_false] at hs
      rcases hs with rfl | rfl | rfl | rfl | rfl
      · exact absurd hstat (not_verified_after_update s0 cid _ hproc c hfind)
      · exact absurd hstat (not_verified_after_update s0 cid _ hproc c hfind)
      · exact absurd hstat (not_verified_after_update s0 cid _ hproc c hfind)
      · exact hvd2
      · show (findDoc new_vid (alertState _ cid _ _ now).verdicts).isSome
        unfold alertState
        split
        · exact hvd2
        · exact hvd2

set_option maxRecDepth 8000 in
/-- Witness for C9 at a concrete input: in the final observable state
of a successful run, where the claim is marked "verified" with the new
verdict id, that verdict record is present in the verdict store. -/
theorem verify_claim_verdict_write_order_witness :
    (findDoc "v1" (lastState wState
        (verify_claim wState "c1" false (.ok [wEvidenceSrc] 1 ["q"])
          (.ok wRaw) "v1" 5)).verdicts).isSome = true := by
  exact (verify_claim_verdict_write_order wState "c1" false
      (.ok [wEvidenceSrc] 1 ["q"]) (.ok wRaw) "v1" 5).2
    (lastState wState
      (verify_claim wState "c1" false (.ok [wEvidenceSrc] 1 ["q"]) (.ok wRaw) "v1" 5))
    (by decide)
    { wClaim with verdict_id := some "v1", status := "verified", updated_at := 5 }
    (by decide) (by decide) (by decide)
